import Mathlib

/-!
Verification development for the `anycard` repository.

The repository is a set of command-line scripts that fetch playing-card SVG
artwork, classify free-form filenames into a canonical `{Rank}{Suit}.svg`
naming scheme, composite foreign artwork into a fixed card template, extract
cards from a sprite sheet, and validate SVG files.

This file gives a shallow embedding of the parts of the code the claims are
about:
 * `scripts/download_atlasnye_cardset.py` — the filename classifier
   `parse_filename` with its keyword tables and its back/joker counters;
 * `scripts/generate_back_and_jokers_for_digitaldesignlabs.py` — the
   geometry of the SVG card compositor (`get_viewbox`, `inner_rect`,
   the scale/translate computation of `process_downloaded_svg`);
 * `scripts/extract_htdebeer_cardset.py` — the sprite-sheet extractor
   `save_isolated_card` and its driving loop;
 * `scripts/validate_svgs.py` — the validation utility's control flow.

Machine floats of the Python code are embedded as exact rationals (`ℚ`):
every arithmetic operation the claims mention (division, min, max,
translate formulas) is exact in the source's intent, and no claim is about
rounding behavior.
-/

namespace Anycard

/-! ## String primitives

The classifier works on Python `str` values; we embed them as `List Char`.
Keyword tests in the source are `re.search` with alternations of plain
literals (substring containment) plus the single pattern `1\b`
(the digit `1` followed by a word boundary).  Python's `\w` is embedded as
ASCII alphanumerics plus underscore, which is exhaustive for the filename
alphabet these scripts handle.
-/

/-- `startsWithL p s` : `p` is a prefix of `s` (Python `str.startswith`). -/
def startsWithL : List Char → List Char → Bool
  | [], _ => true
  | _ :: _, [] => false
  | p :: ps, c :: cs => p == c && startsWithL ps cs

/-- `containsSub pat s` : `pat` occurs as a contiguous substring of `s`
(Python `pat in s`, also `re.search` of a literal pattern). -/
def containsSub (pat : List Char) : List Char → Bool
  | [] => pat.isEmpty
  | c :: rest => startsWithL pat (c :: rest) || containsSub pat rest

/-- `containsKw kw name` : the literal keyword `kw` occurs in `name`. -/
def containsKw (kw : String) (name : List Char) : Bool :=
  containsSub kw.toList name

/-- Python's `\w` (ASCII fragment): letters, digits, underscore. -/
def isWordChar (c : Char) : Bool := c.isAlphanum || c == '_'

/-- `re.search(r'1\b', name)` : some occurrence of `'1'` is followed by a
word boundary (end of string or a non-word character). -/
def hasStandaloneOne : List Char → Bool
  | [] => false
  | ['1'] => true
  | '1' :: c :: rest => !isWordChar c || hasStandaloneOne (c :: rest)
  | _ :: rest => hasStandaloneOne rest

/-! ## download_atlasnye_cardset.py — keyword tables (lines 13–34)

Every suit/rank regex in the source is an alternation of plain literals,
except the ace entry whose third alternative is `1\b`.  `RAlt` is that
pattern language. -/

/-- One alternative of a rank/suit regex: a literal, or the pattern `1\b`. -/
inductive RAlt where
  | lit (s : String)
  | oneBoundary
deriving DecidableEq

/-- `re.search` of one alternative against the (lower-cased) name. -/
def altMatches (a : RAlt) (name : List Char) : Bool :=
  match a with
  | .lit s => containsKw s name
  | .oneBoundary => hasStandaloneOne name

/-- `re.search` of an alternation `(a|b|...)` against the name. -/
def patMatches (p : List RAlt) (name : List Char) : Bool :=
  p.any (fun a => altMatches a name)

/-- `SUITS_REGEX` (source lines 13–18), in dict insertion order. -/
def SUITS_REGEX : List (String × List RAlt) :=
  [("H", [.lit "heart", .lit "chervi", .lit "worm"]),
   ("D", [.lit "diamond", .lit "bubn"]),
   ("C", [.lit "club", .lit "tref"]),
   ("S", [.lit "spade", .lit "pik"])]

/-- `RANKS_REGEX` (source lines 20–34), in dict insertion order.  Note the
`'T'` entry is the bare literal `10` — the source comment at lines 120–125
announces a boundary check, but both branches of the loop run the same
`re.search(pattern, name)` with this table's pattern unchanged. -/
def RANKS_REGEX : List (String × List RAlt) :=
  [("A", [.lit "ace", .lit "tuz", .oneBoundary]),
   ("K", [.lit "king", .lit "korol"]),
   ("Q", [.lit "queen", .lit "dama"]),
   ("J", [.lit "jack", .lit "knave", .lit "valet"]),
   ("T", [.lit "10"]),
   ("9", [.lit "9"]),
   ("8", [.lit "8"]),
   ("7", [.lit "7"]),
   ("6", [.lit "6"]),
   ("5", [.lit "5"]),
   ("4", [.lit "4"]),
   ("3", [.lit "3"]),
   ("2", [.lit "2"])]

/-! ## download_atlasnye_cardset.py — parse_filename (lines 86–138) -/

/-- The process-wide counters (source lines 37–38). -/
structure CounterState where
  back_counter : Nat
  joker_counter : Nat
deriving DecidableEq

/-- Line 98: `"back" in name or "rubashka" in name or "dorso" in name`. -/
def hasBackKeyword (name : List Char) : Bool :=
  containsKw "back" name || containsKw "rubashka" name || containsKw "dorso" name

/-- Line 105: `"joker" in name or "jolly" in name`. -/
def hasJokerKeyword (name : List Char) : Bool :=
  containsKw "joker" name || containsKw "jolly" name

/-- Lines 111–115: the first suit whose pattern matches, in table order. -/
def found_suit (name : List Char) : Option String :=
  (SUITS_REGEX.find? (fun p => patMatches p.2 name)).map (fun p => p.1)

/-- Lines 118–133: the first rank whose pattern matches, in table order.
The numeric and word branches of the source loop are textually distinct but
perform the identical `re.search(pattern, name)`, so a single first-match
scan is the faithful embedding. -/
def found_rank (name : List Char) : Option String :=
  (RANKS_REGEX.find? (fun p => patMatches p.2 name)).map (fun p => p.1)

/-- The body of `parse_filename` after normalization (source lines 96–138),
acting on the lower-cased URL-decoded name and the global counters. -/
def classify (name : List Char) (st : CounterState) :
    Option String × CounterState :=
  if hasBackKeyword name then
    if st.back_counter < 2 then
      (some (Nat.repr (st.back_counter + 1) ++ "B.svg"),
       ⟨st.back_counter + 1, st.joker_counter⟩)
    else
      (none, st)
  else if hasJokerKeyword name then
    (some (Nat.repr (st.joker_counter + 1) ++ "J.svg"),
     ⟨st.back_counter, st.joker_counter + 1⟩)
  else
    match found_suit name, found_rank name with
    | some s, some r => (some (r ++ s ++ ".svg"), st)
    | some _, none => (none, st)
    | none, _ => (none, st)

/-- A hexadecimal digit (the name is lower-cased before decoding, but
`unquote` itself also accepts upper-case hex). -/
def isHexChar (c : Char) : Bool :=
  c.isDigit || ('a' ≤ c && c ≤ 'f') || ('A' ≤ c && c ≤ 'F')

/-- Hex digit value, for percent-decoding. -/
def hexVal (c : Char) : Nat :=
  if c.isDigit then c.toNat - 48
  else if 'a' ≤ c ∧ c ≤ 'f' then c.toNat - 87
  else c.toNat - 55

/-- `urllib.parse.unquote` on the ASCII fragment: `%XX` hex escapes decode
to the corresponding character, malformed escapes pass through unchanged
(source line 94). -/
def percentDecode : List Char → List Char
  | '%' :: a :: b :: rest =>
    if isHexChar a && isHexChar b then
      Char.ofNat (hexVal a * 16 + hexVal b) :: percentDecode rest
    else
      '%' :: percentDecode (a :: b :: rest)
  | c :: rest => c :: percentDecode rest
  | [] => []

/-- Lines 93–94: `name = filename.lower()` then `urllib.parse.unquote`. -/
def normalize (filename : String) : List Char :=
  percentDecode (filename.toList.map Char.toLower)

/-- `parse_filename` (source lines 86–138): normalize, then classify,
threading the two global counters explicitly. -/
def parse_filename (filename : String) (st : CounterState) :
    Option String × CounterState :=
  classify (normalize filename) st

/-! ## download_atlasnye_cardset.py — the run over a category listing

`main` (lines 156–177) calls `parse_filename` once per discovered filename,
threading the two global counters through the whole run.  `runState` is the
state after a run; `runBackOutputs` (resp. `runJokerOutputs`) collects, in
order, the classifier's answers for exactly those filenames that take the
back branch (resp. the joker branch, i.e. joker keyword and no back
keyword, since the back test at line 98 precedes the joker test at
line 105). -/

/-- Counter state after classifying a list of filenames in order. -/
def runState : List String → CounterState → CounterState
  | [], st => st
  | f :: rest, st => runState rest (parse_filename f st).2

/-- Outputs of the run restricted to filenames containing a back keyword. -/
def runBackOutputs : List String → CounterState → List (Option String)
  | [], _ => []
  | f :: rest, st =>
    if hasBackKeyword (normalize f) then
      (parse_filename f st).1 :: runBackOutputs rest (parse_filename f st).2
    else
      runBackOutputs rest (parse_filename f st).2

/-- Outputs of the run restricted to filenames taking the joker branch
(joker keyword present, back keyword absent). -/
def runJokerOutputs : List String → CounterState → List (Option String)
  | [], _ => []
  | f :: rest, st =>
    if !hasBackKeyword (normalize f) && hasJokerKeyword (normalize f) then
      (parse_filename f st).1 :: runJokerOutputs rest (parse_filename f st).2
    else
      runJokerOutputs rest (parse_filename f st).2

/-- Number of filenames in the run that take the back branch. -/
def countBackInputs (l : List String) : Nat :=
  l.countP (fun f => hasBackKeyword (normalize f))

/-- Number of filenames in the run that take the joker branch. -/
def countJokerInputs (l : List String) : Nat :=
  l.countP (fun f => !hasBackKeyword (normalize f) && hasJokerKeyword (normalize f))

/-- What the back branch answers when the counter currently reads `k`:
the `(k+1)`-st back identifier while `k < 2`, nothing afterwards. -/
def backSlotOut (k : Nat) : Option String :=
  if k < 2 then some (Nat.repr (k + 1) ++ "B.svg") else none

/-! ## generate_back_and_jokers_for_digitaldesignlabs.py — template constants
(lines 11–15) and interior rect (lines 108–111) -/

/-- `TARGET_WIDTH = 225` (line 11). -/
def TARGET_WIDTH : ℚ := 225

/-- `TARGET_HEIGHT = 314` (line 12). -/
def TARGET_HEIGHT : ℚ := 314

/-- `BORDER_RADIUS = 11.25` (line 13). -/
def BORDER_RADIUS : ℚ := 11.25

/-- `STROKE_WIDTH = 2` (line 14). -/
def STROKE_WIDTH : ℚ := 2

/-- `JOKER_VERTICAL_PADDING = 16.0` (line 15). -/
def JOKER_VERTICAL_PADDING : ℚ := 16

/-- `inner_rect()` (lines 108–111): the card interior inside the stroke,
as `(x, y, w, h)`. -/
def inner_rect : ℚ × ℚ × ℚ × ℚ :=
  (STROKE_WIDTH / 2, STROKE_WIDTH / 2,
   TARGET_WIDTH - STROKE_WIDTH, TARGET_HEIGHT - STROKE_WIDTH)

/-- `is_back_filename` (lines 171–173): upper-cased name ends in `B.SVG`. -/
def is_back_filename (filename : String) : Bool :=
  startsWithL ("B.SVG".toList.reverse) ((filename.toList.map Char.toUpper).reverse)

/-- `is_joker_filename` (lines 175–177): upper-cased name ends in `J.SVG`. -/
def is_joker_filename (filename : String) : Bool :=
  startsWithL ("J.SVG".toList.reverse) ((filename.toList.map Char.toUpper).reverse)

/-! ## generate_back_and_jokers_for_digitaldesignlabs.py — get_viewbox
(lines 67–95)

`get_viewbox` extracts `(min_x, min_y, width, height)` from the `viewBox`
attribute, else from `width`/`height`, else a fixed fallback.  Attribute
strings are embedded as they are; `float()` on a token is embedded as an
exact decimal-numeral parser over `ℚ` (`none` models the `ValueError` that
`float()` raises on a non-numeral — the tokens these scripts meet are plain
decimal numerals, optionally signed).  A failed `float()` inside the
`viewBox` branch is uncaught in the source, hence the `Except` result. -/

/-- Python `\s`: the six ASCII whitespace characters. -/
def isSpaceChar (c : Char) : Bool :=
  c == ' ' || c == '\t' || c == '\n' || c == '\r' || c == '\x0b' || c == '\x0c'

/-- A separator of the viewBox split `re.split(r"[,\s]+", ...)` (line 74). -/
def isVBSep (c : Char) : Bool := c == ',' || isSpaceChar c

/-- `str.strip()`: drop leading and trailing whitespace. -/
def stripWS (s : List Char) : List Char :=
  ((s.dropWhile isSpaceChar).reverse.dropWhile isSpaceChar).reverse

/-! Tokenizer for `re.split(r"[,\s]+", s)`.  `re.split` returns one
(possibly empty) piece before, between and after the separator-run
matches: a separator run at the start of the string contributes an empty
first piece, a run at the end an empty last piece, and the `+` quantifier
merges adjacent separators so no interior empty pieces occur.  Since
`str.strip()` removes only whitespace and not commas, a stripped viewBox
value can still begin or end with a comma, so these empty edge pieces do
arise (e.g. `re.split` on `",1 2 3"` yields `['', '1', '2', '3']`). -/

mutual

/-- Splitting state inside a piece: `cur` holds the piece accumulated since
the last separator run (reversed).  A separator emits the piece — empty
exactly when the string starts with a separator — and the end of input
emits the final piece. -/
def splitVBTok (cur : List Char) : List Char → List (List Char)
  | [] => [cur.reverse]
  | c :: rest =>
    if isVBSep c then cur.reverse :: splitVBSep rest
    else splitVBTok (c :: cur) rest

/-- Splitting state inside a separator run: further separators extend the
run; a run that ends the string still contributes one empty trailing
piece. -/
def splitVBSep : List Char → List (List Char)
  | [] => [[]]
  | c :: rest =>
    if isVBSep c then splitVBSep rest
    else splitVBTok [c] rest

end

/-- `re.split(r"[,\s]+", vb.strip())` (line 74), with `re.split`'s empty
edge pieces for a string that starts or ends with a separator, and `['']`
for the empty string. -/
def splitVB (s : List Char) : List (List Char) := splitVBTok [] s

/-- Value of a list of decimal digits. -/
def digitsVal (ds : List Char) : Nat :=
  ds.foldl (fun a c => a * 10 + (c.toNat - 48)) 0

/-- `float()` on an unsigned decimal numeral built from digits and at most
one dot; `none` models the `ValueError` on anything else (empty string,
lone dot, several dots, stray characters). -/
def parseUnsigned (s : List Char) : Option ℚ :=
  match s.splitOn '.' with
  | [intPart] =>
    if intPart ≠ [] ∧ intPart.all Char.isDigit then
      some ((digitsVal intPart : ℚ))
    else none
  | [intPart, fracPart] =>
    if (intPart ++ fracPart) ≠ [] ∧ (intPart ++ fracPart).all Char.isDigit then
      some ((digitsVal intPart : ℚ) +
        (digitsVal fracPart : ℚ) / ((10 : ℚ) ^ fracPart.length))
    else none
  | _ => none

/-- `float()` on a possibly signed decimal numeral token. -/
def parseFloat (s : List Char) : Option ℚ :=
  match s with
  | '-' :: rest => (parseUnsigned rest).map (fun q => -q)
  | '+' :: rest => parseUnsigned rest
  | _ => parseUnsigned s

/-- The attributes of a source SVG root element that `get_viewbox` reads:
`root.get("viewBox")`, `root.get("width", "")`, `root.get("height", "")`. -/
structure SvgRootAttrs where
  viewBox : Option String
  width : Option String
  height : Option String

/-- `parse_unit` (lines 81–88): empty value is 0, else strip every
character that is not a digit or a dot and `float()` the rest, with the
`except` clause mapping failure to 0. -/
def parse_unit (val : String) : ℚ :=
  if val.toList = [] then 0
  else
    match parseUnsigned (val.toList.filter (fun c => c.isDigit || c == '.')) with
    | some q => q
    | none => 0

/-- The `width`/`height` path and fallback of `get_viewbox`
(lines 78–95). -/
def viewboxFallback (root : SvgRootAttrs) : ℚ × ℚ × ℚ × ℚ :=
  let w := parse_unit (root.width.getD "")
  let h := parse_unit (root.height.getD "")
  if 0 < w ∧ 0 < h then (0, 0, w, h) else (0, 0, 200, 300)

/-- `get_viewbox` (lines 67–95).  The `viewBox` branch runs only when the
attribute is present and non-empty (Python truthiness of `if vb:`) and its
stripped value splits into exactly 4 parts; a non-numeral part there makes
`float()` raise, which nothing catches (`Except.error`). -/
def get_viewbox (root : SvgRootAttrs) : Except String (ℚ × ℚ × ℚ × ℚ) :=
  match root.viewBox with
  | some vb =>
    if vb.toList ≠ [] then
      let parts := splitVB (stripWS vb.toList)
      if parts.length = 4 then
        match parseFloat (parts.getD 0 []), parseFloat (parts.getD 1 []),
          parseFloat (parts.getD 2 []), parseFloat (parts.getD 3 []) with
        | some a, some b, some c, some d => .ok (a, b, c, d)
        | _, _, _, _ => .error "ValueError: could not convert string to float"
      else .ok (viewboxFallback root)
    else .ok (viewboxFallback root)
  | none => .ok (viewboxFallback root)

/-! ## generate_back_and_jokers_for_digitaldesignlabs.py —
process_downloaded_svg geometry (lines 179–252) -/

/-- The condition guarding the `viewBox` branch of `get_viewbox`: the
attribute exists, is non-empty, and splits into exactly four fields. -/
def hasFourFieldViewBox (root : SvgRootAttrs) : Bool :=
  match root.viewBox with
  | some vb => !(vb.toList.isEmpty) && ((splitVB (stripWS vb.toList)).length == 4)
  | none => false

/-- A source bounding box `(min_x, min_y, width, height)`. -/
structure Box where
  min_x : ℚ
  min_y : ℚ
  w : ℚ
  h : ℚ

/-- The geometric outcome of `process_downloaded_svg` (lines 191–228): the
destination rect actually used (interior, vertically padded for jokers),
the raw per-axis ratios, the mode-selected scale, the overscaled per-axis
scales, and the translation of the wrapper group. -/
structure Layout where
  dst_x : ℚ
  dst_y : ℚ
  dst_w : ℚ
  dst_h : ℚ
  scale_w : ℚ
  scale_h : ℚ
  scale : ℚ
  scale_x : ℚ
  scale_y : ℚ
  tx : ℚ
  ty : ℚ

/-- Lines 191–228 of `process_downloaded_svg`: destination rect (with the
joker vertical padding of lines 195–199), ratios and mode selection
(lines 200–206), the back/joker overscale correction (lines 211–220), and
the centering translation (lines 222–224). -/
def computeLayout (filename : String) (src : Box) (mode : String) : Layout :=
  let x0 := inner_rect.1
  let y0 := inner_rect.2.1
  let w0 := inner_rect.2.2.1
  let h0 := inner_rect.2.2.2
  let dst_x := x0
  let dst_y := if is_joker_filename filename then y0 + JOKER_VERTICAL_PADDING else y0
  let dst_w := w0
  let dst_h := if is_joker_filename filename then h0 - JOKER_VERTICAL_PADDING * 2 else h0
  let scale_w := dst_w / src.w
  let scale_h := dst_h / src.h
  let scale := if mode == "cover" then max scale_w scale_h else min scale_w scale_h
  let scale_x :=
    if is_back_filename filename then scale * 1.035
    else if is_joker_filename filename then scale * 1.01
    else scale
  let scale_y :=
    if is_back_filename filename then scale * 1.02
    else if is_joker_filename filename then scale * 1.01
    else scale
  let tx := dst_x + (dst_w - src.w * scale_x) / 2 - src.min_x * scale_x
  let ty := dst_y + (dst_h - src.h * scale_y) / 2 - src.min_y * scale_y
  ⟨dst_x, dst_y, dst_w, dst_h, scale_w, scale_h, scale, scale_x, scale_y, tx, ty⟩

/-- An XML element as the extractor sees it. -/
inductive XEl where
  | mk (tag : String) (idAttr : Option String) (display : Option String)
      (children : List XEl)

/-- The element's tag. -/
def XEl.tag : XEl → String
  | .mk t _ _ _ => t

/-- The element's `id` attribute. -/
def XEl.idAttr : XEl → Option String
  | .mk _ i _ _ => i

/-- The element's `display` attribute. -/
def XEl.display : XEl → Option String
  | .mk _ _ d _ => d

/-- The element's children. -/
def XEl.children : XEl → List XEl
  | .mk _ _ _ c => c

/-- `target_copy.attrib.pop("display", None)` (line 130): clear the
inherited hidden/display attribute on the extracted card. -/
def XEl.stripDisplay : XEl → XEl
  | .mk t i _ c => .mk t i none c

/-- `root.find(tag)`: first direct child with the given tag (line 118). -/
def childWithTag (tag : String) : List XEl → Option XEl
  | [] => none
  | e :: rest => if e.tag == tag then some e else childWithTag tag rest

mutual

/-- `element.iter()` search of lines 127–131: the element itself first,
then its descendants in document order; first hit on `id == target_id`. -/
def findById (tid : String) : XEl → Option XEl
  | .mk t i d c =>
    if i == some tid then some (.mk t i d c) else findByIdList tid c

/-- DFS over a forest, leftmost hit first. -/
def findByIdList (tid : String) : List XEl → Option XEl
  | [] => none
  | e :: rest =>
    match findById tid e with
    | some r => some r
    | none => findByIdList tid rest

end

/-- Outcome of `save_isolated_card` for one target: the missing-`defs`
error (lines 119–121), the missing-id error (line 149), or a written file
containing the shared defs plus the display-cleared card (lines 143–147). -/
inductive ExtractResult where
  | noDefs
  | notFound (tid : String)
  | saved (filename : String) (defsCopy : XEl) (card : XEl)

/-- `save_isolated_card` (lines 113–149): find the direct `defs` child —
missing means an error report and no write; then locate `target_id` inside
it — found means a file is written with defs plus the card (display
cleared), otherwise a per-card error report and no write. -/
def save_isolated_card (root : XEl) (filename target_id : String) :
    ExtractResult :=
  match childWithTag "defs" root.children with
  | none => .noDefs
  | some defsEl =>
    match findById target_id defsEl with
    | some t => .saved filename defsEl t.stripDisplay
    | none => .notFound target_id

/-- The extraction loop of `main` (lines 107–108): one
`save_isolated_card` call per `(filename, target_id)` pair, in order, with
no early exit. -/
def runExtract (root : XEl) (targets : List (String × String)) :
    List ExtractResult :=
  targets.map (fun p => save_isolated_card root p.1 p.2)

/-- The files an extraction run wrote. -/
def extractWritten : List ExtractResult → List String
  | [] => []
  | .saved f _ _ :: rest => f :: extractWritten rest
  | _ :: rest => extractWritten rest

/-! ## validate_svgs.py — control flow (lines 29–75)

The external validators are embedded as oracles: each discovered file
carries the pass/fail verdict `run_command` would return for `xmllint` and
for `svgcheck`.  The observable output is the exit status plus the printed
report lines the claims mention. -/

/-- One discovered `.svg` file with its validator verdicts. -/
structure SvgCheckItem where
  name : String
  xmllintPass : Bool
  svgcheckPass : Bool

/-- Whether one file trips the `failed` flag (lines 51–66): `xmllint`
failing always does; `svgcheck` failing does only when enabled. -/
def fileFailed (useSvgcheck : Bool) (it : SvgCheckItem) : Bool :=
  !it.xmllintPass || (useSvgcheck && !it.svgcheckPass)

/-- The per-file report block (lines 48–66). -/
def checkFileLines (useSvgcheck : Bool) (it : SvgCheckItem) : List String :=
  ("=== Checking " ++ it.name ++ " ===") ::
  ("  xmllint: " ++ (if it.xmllintPass then "PASS" else "FAIL")) ::
  (if useSvgcheck then
    [("  svgcheck: " ++ (if it.svgcheckPass then "PASS" else "FAIL"))]
  else [])

/-- `validate_svgs.py` main flow (lines 29–75): non-directory argument
exits 1; an empty recursive `*.svg` listing prints `No SVG files found.`
and exits 0; otherwise every file is checked, and the exit status is 1
exactly when some check failed.  Result: `(exit status, printed lines)`. -/
def validate_svgs (isDir : Bool) (svgs : List SvgCheckItem)
    (useSvgcheck : Bool) : Nat × List String :=
  if !isDir then
    (1, ["Error: not a directory"])
  else if svgs.isEmpty then
    (0, ["No SVG files found."])
  else
    let failed := svgs.any (fun it => fileFailed useSvgcheck it)
    ((if failed then 1 else 0),
      (svgs.map (fun it => checkFileLines useSvgcheck it)).flatten ++
      [if failed then "Some SVGs failed - check above for details."
       else "All SVGs passed validation!"])

/-! # Theorems -/

/-! ## Branch lemmas for the classifier -/

/-- Back branch, counter still below 2 (lines 98–101). -/
theorem classify_back_lt (name : List Char) (st : CounterState)
    (h : hasBackKeyword name = true) (hlt : st.back_counter < 2) :
    classify name st =
      (some (Nat.repr (st.back_counter + 1) ++ "B.svg"),
       ⟨st.back_counter + 1, st.joker_counter⟩) := by
  simp [classify, h, hlt]

/-- Back branch, counter exhausted (line 102). -/
theorem classify_back_ge (name : List Char) (st : CounterState)
    (h : hasBackKeyword name = true) (hge : ¬ st.back_counter < 2) :
    classify name st = (none, st) := by
  simp [classify, h, hge]

/-- Joker branch (lines 105–108). -/
theorem classify_joker (name : List Char) (st : CounterState)
    (hb : hasBackKeyword name = false) (hj : hasJokerKeyword name = true) :
    classify name st =
      (some (Nat.repr (st.joker_counter + 1) ++ "J.svg"),
       ⟨st.back_counter, st.joker_counter + 1⟩) := by
  simp [classify, hb, hj]

/-- The suit/rank branch never touches the counters (lines 110–138). -/
theorem classify_snd_of_not_special (name : List Char) (st : CounterState)
    (hb : hasBackKeyword name = false) (hj : hasJokerKeyword name = false) :
    (classify name st).2 = st := by
  cases hs : found_suit name <;> cases hr : found_rank name <;>
    simp [classify, hb, hj, hs, hr]

/-- No branch other than a live back branch changes `back_counter`. -/
theorem classify_back_counter_of_not_back (name : List Char) (st : CounterState)
    (h : hasBackKeyword name = false) :
    ((classify name st).2).back_counter = st.back_counter := by
  by_cases hj : hasJokerKeyword name = true
  · simp [classify_joker name st h hj]
  · rw [classify_snd_of_not_special name st h (by simpa using hj)]

/-- The joker counter increments exactly on the joker branch. -/
theorem classify_joker_counter (name : List Char) (st : CounterState) :
    ((classify name st).2).joker_counter =
      if !hasBackKeyword name && hasJokerKeyword name then
        st.joker_counter + 1
      else
        st.joker_counter := by
  by_cases hb : hasBackKeyword name = true
  · by_cases hlt : st.back_counter < 2
    · simp [classify_back_lt name st hb hlt, hb]
    · simp [classify_back_ge name st hb hlt, hb]
  · have hb' : hasBackKeyword name = false := by simpa using hb
    by_cases hj : hasJokerKeyword name = true
    · simp [classify_joker name st hb' hj, hb', hj]
    · have hj' : hasJokerKeyword name = false := by simpa using hj
      rw [classify_snd_of_not_special name st hb' hj']
      simp [hb', hj']

/-! ## Claim C1 -/

/-- **C1, failing input.** The spec (and the source's own comment at lines
120–125) require that a filename containing `100` is not classified as rank
`T`.  The code searches the bare literal `10`, which occurs inside `100`:
on `"heart100.svg"` (suit keyword `heart`, digits `100`, no word-rank
keyword, no back/joker keyword, no standalone `10`), `parse_filename`
returns `TH.svg` — rank `T` derived from the `10` embedded in `100`. -/
theorem c1_code_eval :
    containsKw "100" (normalize "heart100.svg") = true
    ∧ containsKw "back" (normalize "heart100.svg") = false
    ∧ hasStandaloneOne (normalize "heart100.svg") = false
    ∧ parse_filename "heart100.svg" ⟨0, 0⟩ = (some "TH.svg", ⟨0, 0⟩) :=
  ⟨rfl, rfl, rfl, rfl⟩

/-! ## Claim C2 -/

/-- **C2.** For every (lower-cased, URL-decoded) name with no back and no
joker keyword: if some suit pattern and some rank pattern match, the
classifier returns `{rank}{suit}.svg` built from the *first* matching
entries in table iteration order (`found_suit`/`found_rank` are the
first-match scans of the tables), leaving the counters unchanged; if the
name matches a suit but no rank, or a rank but no suit, it returns `None`
with no partial output. -/
theorem c2_first_match_tables (name : List Char) (st : CounterState)
    (hb : hasBackKeyword name = false) (hj : hasJokerKeyword name = false) :
    (∀ s r, found_suit name = some s → found_rank name = some r →
      classify name st = (some (r ++ s ++ ".svg"), st))
    ∧ ((found_suit name = none ∨ found_rank name = none) →
      classify name st = (none, st)) := by
  constructor
  · intro s r hs hr
    simp [classify, hb, hj, hs, hr]
  · intro h
    rcases h with h | h
    · simp [classify, hb, hj, h]
    · cases hs : found_suit name with
      | none => simp [classify, hb, hj, hs]
      | some s => simp [classify, hb, hj, hs, h]

/-- **C2, witness.** `"king_of_hearts.svg"` has no back/joker keyword, its
first matching suit is `H` (`heart`) and first matching rank is `K`
(`king`); the classifier yields `KH.svg` and does not move the counters. -/
theorem c2_first_match_tables_witness :
    hasBackKeyword ("king_of_hearts.svg".toList) = false
    ∧ hasJokerKeyword ("king_of_hearts.svg".toList) = false
    ∧ classify ("king_of_hearts.svg".toList) ⟨0, 0⟩ =
        (some ("K" ++ "H" ++ ".svg"), ⟨0, 0⟩) :=
  ⟨rfl, rfl,
    (c2_first_match_tables ("king_of_hearts.svg".toList) ⟨0, 0⟩ rfl rfl).1
      "H" "K" rfl rfl⟩

/-! ## Run lemmas for the counters -/

/-- Runs compose by appending listings. -/
theorem runState_append (l m : List String) : ∀ st : CounterState,
    runState (l ++ m) st = runState m (runState l st) := by
  induction l with
  | nil => intro st; rfl
  | cons f rest ih => intro st; simpa [runState] using ih (parse_filename f st).2

/-- The back counter after a run: it absorbs one unit per back-branch
filename, saturating at 2. -/
theorem runState_back_counter (l : List String) : ∀ st : CounterState,
    st.back_counter ≤ 2 →
    (runState l st).back_counter = min 2 (st.back_counter + countBackInputs l) := by
  induction l with
  | nil =>
    intro st h
    simp only [runState, countBackInputs, List.countP_nil, Nat.add_zero]
    omega
  | cons f rest ih =>
    intro st h
    by_cases hb : hasBackKeyword (normalize f) = true
    · have hcnt : countBackInputs (f :: rest) = countBackInputs rest + 1 := by
        simp [countBackInputs, List.countP_cons, hb]
      by_cases hlt : st.back_counter < 2
      · rw [runState, parse_filename, classify_back_lt (normalize f) st hb hlt]
        rw [ih ⟨st.back_counter + 1, st.joker_counter⟩
          (by show st.back_counter + 1 ≤ 2; omega)]
        rw [hcnt]
        dsimp only
        congr 1
        omega
      · rw [runState, parse_filename, classify_back_ge (normalize f) st hb hlt]
        rw [ih st h, hcnt]
        omega
    · have hb' : hasBackKeyword (normalize f) = false := by simpa using hb
      have hcnt : countBackInputs (f :: rest) = countBackInputs rest := by
        simp [countBackInputs, List.countP_cons, hb']
      rw [runState, hcnt]
      have hback := classify_back_counter_of_not_back (normalize f) st hb'
      rw [ih (parse_filename f st).2 (by rw [parse_filename, hback]; exact h)]
      rw [parse_filename, hback]

/-- The joker counter after a run: exactly one unit per joker-branch
filename, never capped. -/
theorem runState_joker_counter (l : List String) : ∀ st : CounterState,
    (runState l st).joker_counter = st.joker_counter + countJokerInputs l := by
  induction l with
  | nil => intro st; simp [runState, countJokerInputs]
  | cons f rest ih =>
    intro st
    rw [runState, ih (parse_filename f st).2, parse_filename,
      classify_joker_counter (normalize f) st]
    by_cases hjb : (!hasBackKeyword (normalize f) && hasJokerKeyword (normalize f)) = true
    · simp [countJokerInputs, List.countP_cons, hjb]
      omega
    · have hjb' : (!hasBackKeyword (normalize f) && hasJokerKeyword (normalize f)) = false := by
        simpa using hjb
      simp [countJokerInputs, List.countP_cons, hjb']

/-- The sequence of back-branch answers of a run, as a function of the
number of earlier back-branch filenames. -/
theorem runBackOutputs_eq (l : List String) : ∀ st : CounterState,
    runBackOutputs l st =
      (List.range (countBackInputs l)).map
        (fun n => backSlotOut (st.back_counter + n)) := by
  induction l with
  | nil => intro st; simp [runBackOutputs, countBackInputs]
  | cons f rest ih =>
    intro st
    by_cases hb : hasBackKeyword (normalize f) = true
    · have hcnt : countBackInputs (f :: rest) = countBackInputs rest + 1 := by
        simp [countBackInputs, List.countP_cons, hb]
      rw [runBackOutputs, if_pos hb, hcnt, List.range_succ_eq_map]
      by_cases hlt : st.back_counter < 2
      · rw [parse_filename, classify_back_lt (normalize f) st hb hlt]
        rw [ih ⟨st.back_counter + 1, st.joker_counter⟩]
        simp only [List.map_cons, List.map_map]
        congr 1
        · simp [backSlotOut, hlt]
        · apply List.map_congr_left
          intro n _
          simp only [Function.comp]
          congr 1
          omega
      · rw [parse_filename, classify_back_ge (normalize f) st hb hlt]
        rw [ih st]
        simp only [List.map_cons, List.map_map]
        congr 1
        · simp [backSlotOut, hlt]
        · apply List.map_congr_left
          intro n _
          simp only [Function.comp, backSlotOut]
          rw [if_neg (by omega), if_neg (by omega)]
    · have hb' : hasBackKeyword (normalize f) = false := by simpa using hb
      have hcnt : countBackInputs (f :: rest) = countBackInputs rest := by
        simp [countBackInputs, List.countP_cons, hb']
      rw [runBackOutputs, if_neg (by simp [hb']), hcnt,
        ih (parse_filename f st).2, parse_filename,
        classify_back_counter_of_not_back (normalize f) st hb']

/-- The sequence of joker-branch answers of a run, as a function of the
number of earlier joker-branch filenames. -/
theorem runJokerOutputs_eq (l : List String) : ∀ st : CounterState,
    runJokerOutputs l st =
      (List.range (countJokerInputs l)).map
        (fun n => some (Nat.repr (st.joker_counter + n + 1) ++ "J.svg")) := by
  induction l with
  | nil => intro st; simp [runJokerOutputs, countJokerInputs]
  | cons f rest ih =>
    intro st
    by_cases hjb : (!hasBackKeyword (normalize f) && hasJokerKeyword (normalize f)) = true
    · have hb' : hasBackKeyword (normalize f) = false := by
        rcases Bool.and_eq_true_iff.mp hjb with ⟨h1, _⟩
        simpa using h1
      have hj' : hasJokerKeyword (normalize f) = true :=
        (Bool.and_eq_true_iff.mp hjb).2
      have hcnt : countJokerInputs (f :: rest) = countJokerInputs rest + 1 := by
        simp [countJokerInputs, List.countP_cons, hjb]
      rw [runJokerOutputs, if_pos hjb, hcnt, List.range_succ_eq_map]
      rw [parse_filename, classify_joker (normalize f) st hb' hj']
      rw [ih ⟨st.back_counter, st.joker_counter + 1⟩]
      simp only [List.map_cons, List.map_map]
      congr 1
      · apply List.map_congr_left
        intro n _
        simp only [Function.comp]
        congr 3
        omega
    · have hjb' : (!hasBackKeyword (normalize f) && hasJokerKeyword (normalize f)) = false := by
        simpa using hjb
      have hcnt : countJokerInputs (f :: rest) = countJokerInputs rest := by
        simp [countJokerInputs, List.countP_cons, hjb']
      rw [runJokerOutputs, if_neg (by simp [hjb']), hcnt,
        ih (parse_filename f st).2, parse_filename]
      rw [classify_joker_counter (normalize f) st, hjb']
      simp

/-- Specialization of `backSlotOut` at initial counter 0. -/
theorem backSlotOut_zero_add (n : Nat) :
    backSlotOut (0 + n) =
      if n = 0 then some "1B.svg" else if n = 1 then some "2B.svg" else none := by
  match n with
  | 0 => rfl
  | 1 => rfl
  | (k + 2) =>
    rw [backSlotOut, if_neg (by omega)]
    rw [if_neg (by omega), if_neg (by omega)]

/-- At most two of the numbers `0, ..., c-1` are below 2. -/
theorem countP_range_lt_two (c : Nat) :
    (List.range c).countP (fun n => decide (n < 2)) ≤ 2 := by
  induction c with
  | zero => simp
  | succ k ih =>
    rw [List.range_succ, List.countP_append]
    by_cases hk : k < 2
    · have hlen : (List.range k).countP (fun n => decide (n < 2)) ≤ k :=
        (List.countP_le_length _).trans_eq (List.length_range k)
    -- each of the ≤ k earlier hits plus at most one new one stays ≤ 2
      simp only [List.countP_cons, List.countP_nil, hk]
      simp
      omega
    · simp only [List.countP_cons, List.countP_nil, hk]
      simpa using ih

/-! ## Claim C5 -/

/-- **C5.** In every run of `parse_filename` from the initial counters:
the back-branch filenames receive, in first-seen order, `1B.svg`, then
`2B.svg`, then `none` forever (so at most 2 inputs are ever assigned back
identifiers); the back counter ends at `min 2 (number of back filenames)`,
and stays there — extending the run by any further listing keeps it capped
at 2. -/
theorem c5_back_slots_bounded (l : List String) :
    runBackOutputs l ⟨0, 0⟩ =
      (List.range (countBackInputs l)).map
        (fun n => if n = 0 then some "1B.svg" else if n = 1 then some "2B.svg" else none)
    ∧ (runState l ⟨0, 0⟩).back_counter = min 2 (countBackInputs l)
    ∧ (∀ extra, (runState (l ++ extra) ⟨0, 0⟩).back_counter =
        min 2 (countBackInputs l + countBackInputs extra))
    ∧ (runBackOutputs l ⟨0, 0⟩).countP (fun o => o.isSome) ≤ 2 := by
  have houts : runBackOutputs l ⟨0, 0⟩ =
      (List.range (countBackInputs l)).map
        (fun n => if n = 0 then some "1B.svg" else if n = 1 then some "2B.svg" else none) := by
    rw [runBackOutputs_eq l ⟨0, 0⟩]
    apply List.map_congr_left
    intro n _
    exact backSlotOut_zero_add n
  refine ⟨houts, ?_, ?_, ?_⟩
  · simpa using runState_back_counter l ⟨0, 0⟩ (Nat.zero_le 2)
  · intro extra
    rw [runState_append l extra ⟨0, 0⟩]
    have h1 : (runState l ⟨0, 0⟩).back_counter = min 2 (countBackInputs l) := by
      simpa using runState_back_counter l ⟨0, 0⟩ (Nat.zero_le 2)
    rw [runState_back_counter extra (runState l ⟨0, 0⟩) (by rw [h1]; omega), h1]
    omega
  · rw [houts, List.countP_map]
    have hpt : ∀ n ∈ List.range (countBackInputs l),
        (((fun o => Option.isSome o) ∘ fun n =>
          if n = 0 then some "1B.svg" else if n = 1 then some "2B.svg" else none) n = true ↔
        (fun n => decide (n < 2)) n = true) := by
      intro n _
      match n with
      | 0 => simp
      | 1 => simp
      | (k + 2) =>
        simp only [Function.comp]
        rw [if_neg (by omega), if_neg (by omega)]
        have hk : ¬ (k + 2 < 2) := by omega
        simp [hk]
    rw [List.countP_congr hpt]
    exact countP_range_lt_two (countBackInputs l)

/-! ## Claim C6 -/

/-- **C6, counterexample.** The claim says *every* filename containing a
joker keyword gets the next joker identifier, but the back test (line 98)
runs before the joker test (line 105): `"joker_dorso.svg"` contains the
joker keyword `joker`, yet — containing the back keyword `dorso` — it is
assigned the back identifier `1B.svg`, not `1J.svg`, in the run consisting
of it alone. -/
theorem c6_counterexample :
    hasJokerKeyword (normalize "joker_dorso.svg") = true
    ∧ parse_filename "joker_dorso.svg" ⟨0, 0⟩ = (some "1B.svg", ⟨1, 0⟩)
    ∧ some "1B.svg" ≠ (some "1J.svg" : Option String) :=
  ⟨rfl, rfl, by decide⟩

/-- **C6, amended.** In every run from the initial counters, the n-th
filename that reaches the joker branch — i.e. contains a joker keyword
(`joker`/`jolly`) and no back keyword — is assigned `{n}J.svg` in
first-seen order; the joker counter equals the number of such filenames,
with no upper bound: appending more listings keeps incrementing it by one
per further joker filename. -/
theorem c6_joker_slots_unbounded (l : List String) :
    runJokerOutputs l ⟨0, 0⟩ =
      (List.range (countJokerInputs l)).map
        (fun n => some (Nat.repr (n + 1) ++ "J.svg"))
    ∧ (runState l ⟨0, 0⟩).joker_counter = countJokerInputs l
    ∧ (∀ extra, (runState (l ++ extra) ⟨0, 0⟩).joker_counter =
        countJokerInputs l + countJokerInputs extra) := by
  refine ⟨?_, ?_, ?_⟩
  · rw [runJokerOutputs_eq l ⟨0, 0⟩]
    apply List.map_congr_left
    intro n _
    simp
  · simpa using runState_joker_counter l ⟨0, 0⟩
  · intro extra
    rw [runState_append l extra ⟨0, 0⟩, runState_joker_counter extra _,
      runState_joker_counter l ⟨0, 0⟩]
    simp

/-! ## Claim C3 -/

/-- **C3.** For every source box with positive width and height, the
compositor computes `scale_w = dst_w / src_w` and `scale_h = dst_h / src_h`
against the template interior rect it uses, picks `min` of the two in
`contain` mode and `max` in `cover` mode, and consequently the `cover`
scale is at least the `contain` scale for the same source/template pair. -/
theorem c3_contain_cover_scale (f : String) (src : Box)
    (_hw : 0 < src.w) (_hh : 0 < src.h) :
    (computeLayout f src "contain").scale_w = (computeLayout f src "contain").dst_w / src.w
    ∧ (computeLayout f src "contain").scale_h = (computeLayout f src "contain").dst_h / src.h
    ∧ (computeLayout f src "contain").scale =
        min (computeLayout f src "contain").scale_w (computeLayout f src "contain").scale_h
    ∧ (computeLayout f src "cover").scale =
        max (computeLayout f src "cover").scale_w (computeLayout f src "cover").scale_h
    ∧ (computeLayout f src "contain").scale ≤ (computeLayout f src "cover").scale := by
  refine ⟨rfl, rfl, rfl, rfl, ?_⟩
  show min ((computeLayout f src "contain").dst_w / src.w)
      ((computeLayout f src "contain").dst_h / src.h) ≤
    max ((computeLayout f src "cover").dst_w / src.w)
      ((computeLayout f src "cover").dst_h / src.h)
  exact min_le_max

/-- **C3, witness.** A 200×300 source box has positive dimensions, and on
it the `cover` scale dominates the `contain` scale. -/
theorem c3_contain_cover_scale_witness :
    (0 : ℚ) < (⟨0, 0, 200, 300⟩ : Box).w
    ∧ (0 : ℚ) < (⟨0, 0, 200, 300⟩ : Box).h
    ∧ (computeLayout "1B.svg" ⟨0, 0, 200, 300⟩ "contain").scale ≤
        (computeLayout "1B.svg" ⟨0, 0, 200, 300⟩ "cover").scale :=
  ⟨by norm_num, by norm_num,
    (c3_contain_cover_scale "1B.svg" ⟨0, 0, 200, 300⟩ (by norm_num)
      (by norm_num)).2.2.2.2⟩

/-! ## Claim C4 -/

/-- **C4.** The translation of the composited content is
`tx = dst_x + (dst_w - src_w*scale_x)/2 - src_min_x*scale_x` (and the
symmetric formula for `ty`); consequently the scaled source box is centered
in the destination rect: its transformed midpoint coincides with the rect's
midpoint on both axes, compensating for a non-zero source origin. -/
theorem c4_translation_centers (f mode : String) (src : Box) :
    (computeLayout f src mode).tx =
      (computeLayout f src mode).dst_x +
        ((computeLayout f src mode).dst_w - src.w * (computeLayout f src mode).scale_x) / 2 -
        src.min_x * (computeLayout f src mode).scale_x
    ∧ (computeLayout f src mode).ty =
      (computeLayout f src mode).dst_y +
        ((computeLayout f src mode).dst_h - src.h * (computeLayout f src mode).scale_y) / 2 -
        src.min_y * (computeLayout f src mode).scale_y
    ∧ (computeLayout f src mode).tx + (computeLayout f src mode).scale_x * src.min_x +
        (computeLayout f src mode).scale_x * src.w / 2 =
      (computeLayout f src mode).dst_x + (computeLayout f src mode).dst_w / 2
    ∧ (computeLayout f src mode).ty + (computeLayout f src mode).scale_y * src.min_y +
        (computeLayout f src mode).scale_y * src.h / 2 =
      (computeLayout f src mode).dst_y + (computeLayout f src mode).dst_h / 2 := by
  have htx : (computeLayout f src mode).tx =
      (computeLayout f src mode).dst_x +
        ((computeLayout f src mode).dst_w - src.w * (computeLayout f src mode).scale_x) / 2 -
        src.min_x * (computeLayout f src mode).scale_x := rfl
  have hty : (computeLayout f src mode).ty =
      (computeLayout f src mode).dst_y +
        ((computeLayout f src mode).dst_h - src.h * (computeLayout f src mode).scale_y) / 2 -
        src.min_y * (computeLayout f src mode).scale_y := rfl
  refine ⟨htx, hty, ?_, ?_⟩
  · rw [htx]; ring
  · rw [hty]; ring

/-! ## Claim C8 -/

/-- Comma-edge behavior of the viewBox split, matching Python: a leading
comma contributes an empty first field, so `",1 2 3"` *does* split into
four fields and `get_viewbox` raises — `float('')` is an uncaught
`ValueError`, the run crashes rather than falling back; `",1 2 3 4"`
splits into five fields, so the four-field branch is skipped and, with no
usable width/height, the fallback box applies. -/
theorem get_viewbox_comma_edge :
    splitVB (stripWS ",1 2 3".toList) = [[], ['1'], ['2'], ['3']]
    ∧ hasFourFieldViewBox ⟨some ",1 2 3", none, none⟩ = true
    ∧ get_viewbox ⟨some ",1 2 3", none, none⟩ =
        .error "ValueError: could not convert string to float"
    ∧ splitVB (stripWS ",1 2 3 4".toList) = [[], ['1'], ['2'], ['3'], ['4']]
    ∧ hasFourFieldViewBox ⟨some ",1 2 3 4", none, none⟩ = false
    ∧ get_viewbox ⟨some ",1 2 3 4", none, none⟩ = .ok (0, 0, 200, 300) :=
  ⟨rfl, rfl, rfl, rfl, rfl, rfl⟩

/-- **C8.** A source root element with no (non-empty, four-field) `viewBox`
attribute whose `width`/`height` do not both parse to positive numbers gets
the fixed fallback box `(0, 0, 200, 300)`, and `get_viewbox` succeeds
(compositing proceeds) rather than failing. -/
theorem c8_viewbox_fallback (root : SvgRootAttrs)
    (h1 : hasFourFieldViewBox root = false)
    (h2 : ¬ (0 < parse_unit (root.width.getD "")
      ∧ 0 < parse_unit (root.height.getD ""))) :
    get_viewbox root = .ok (0, 0, 200, 300) := by
  have hfb : viewboxFallback root = (0, 0, 200, 300) := by
    simp only [viewboxFallback]
    rw [if_neg h2]
  cases hvb : root.viewBox with
  | none => simp [get_viewbox, hvb, hfb]
  | some vb =>
    by_cases he : vb.data = []
    · simp [get_viewbox, hvb, he, hfb]
    · by_cases hlen : (splitVB (stripWS vb.data)).length = 4
      · exfalso
        simp [hasFourFieldViewBox, hvb, List.isEmpty_iff] at h1
        exact h1 he hlen
      · simp [get_viewbox, hvb, he, hlen, hfb]

/-- **C8, witness.** A root with no `viewBox`, width `"abc"` (cleans to the
empty string, `float` fails, value 0) and height `"10"`: the fallback box
`(0, 0, 200, 300)` is returned. -/
theorem c8_viewbox_fallback_witness :
    hasFourFieldViewBox ⟨none, some "abc", some "10"⟩ = false
    ∧ ¬ (0 < parse_unit ((⟨none, some "abc", some "10"⟩ : SvgRootAttrs).width.getD "")
        ∧ 0 < parse_unit ((⟨none, some "abc", some "10"⟩ : SvgRootAttrs).height.getD ""))
    ∧ get_viewbox ⟨none, some "abc", some "10"⟩ = .ok (0, 0, 200, 300) :=
  ⟨rfl, by decide, c8_viewbox_fallback ⟨none, some "abc", some "10"⟩ rfl (by decide)⟩

/-! ## Claim C9 -/

/-- **C7, counterexample.** The claim says a missing shared `defs` block
stops the run; in the code the loop keeps calling `save_isolated_card` for
every remaining target.  On a sprite document with no `defs` child (the
card element is even present at top level) and two requested targets, the
run produces a result for *both* items — it continued past the first
missing-`defs` report — while writing nothing. -/
theorem c7_counterexample :
    runExtract (.mk "svg" none none [.mk "g" (some "heart_1") none []])
      [("AH.svg", "heart_1"), ("AS.svg", "spade_1")] = [.noDefs, .noDefs]
    ∧ extractWritten
        (runExtract (.mk "svg" none none [.mk "g" (some "heart_1") none []])
          [("AH.svg", "heart_1"), ("AS.svg", "spade_1")]) = ([] : List String) :=
  ⟨rfl, rfl⟩

/-- **C7, amended.** If the sprite document has no direct `defs` child,
no card file is written for any identifier: every requested target is still
processed in turn, each reporting the missing-`defs` error and being
skipped, and the set of written files is empty. -/
theorem c7_no_defs_writes_nothing (root : XEl) (targets : List (String × String))
    (h : childWithTag "defs" root.children = none) :
    runExtract root targets = targets.map (fun _ => ExtractResult.noDefs)
    ∧ extractWritten (runExtract root targets) = [] := by
  have hrun : runExtract root targets = targets.map (fun _ => ExtractResult.noDefs) := by
    rw [runExtract]
    apply List.map_congr_left
    intro p _
    simp [save_isolated_card, h]
  have hnil : ∀ (l : List (String × String)),
      extractWritten (l.map (fun _ => ExtractResult.noDefs)) = [] := by
    intro l
    induction l with
    | nil => rfl
    | cons t rest ih => simpa [extractWritten] using ih
  exact ⟨hrun, by rw [hrun]; exact hnil targets⟩

/-- **C7, amended, witness.** A defs-less one-child document and a single
requested target: the run yields exactly one missing-`defs` report. -/
theorem c7_no_defs_writes_nothing_witness :
    childWithTag "defs"
      (XEl.mk "svg" none none [XEl.mk "g" (some "club_1") none []]).children = none
    ∧ runExtract (XEl.mk "svg" none none [XEl.mk "g" (some "club_1") none []])
        [("AC.svg", "club_1")] =
      [("AC.svg", "club_1")].map (fun _ => ExtractResult.noDefs) :=
  ⟨rfl,
    (c7_no_defs_writes_nothing
      (XEl.mk "svg" none none [XEl.mk "g" (some "club_1") none []])
      [("AC.svg", "club_1")] rfl).1⟩

/-! ## Claim C10 -/

/-- **C10.** With an existing directory and an empty recursive `*.svg`
listing, the validation utility prints `No SVG files found.` and exits 0 —
the same success status it returns when every discovered file passes
validation. -/
theorem c10_no_svgs_exit_zero (useSvgcheck : Bool) (names : List String) :
    (validate_svgs true [] useSvgcheck).1 = 0
    ∧ (validate_svgs true [] useSvgcheck).2 = ["No SVG files found."]
    ∧ (validate_svgs true (names.map (fun n => ⟨n, true, true⟩)) useSvgcheck).1 = 0 := by
  refine ⟨rfl, rfl, ?_⟩
  cases names with
  | nil => rfl
  | cons n rest =>
    simp [validate_svgs, fileFailed, List.any_map, Function.comp]

end Anycard
